import Mathlib

/-!
Shallow embedding of the core logic of the FindMyCarAppExpo screen module:
geodesic formatting helpers, accuracy labelling, the saved-spot lifecycle,
the note handler, the premium-gated countdown engine, and the compass
arrow derivation. Numeric values that the program handles as JavaScript
numbers are modelled as rationals; JavaScript remainder and rounding are
modelled explicitly. Persistent storage is modelled as a record with one
field per storage key used by the program.
-/

/-- JavaScript Math.round: round half toward positive infinity. -/
def jsRound (q : ℚ) : ℤ := ⌊q + 1 / 2⌋

/-- JavaScript truncation toward zero, used by the remainder operator. -/
def jsTrunc (q : ℚ) : ℤ := if 0 ≤ q then ⌊q⌋ else ⌈q⌉

/-- JavaScript remainder operator on numbers: x % y = x - y * trunc (x / y). -/
def jsMod (x y : ℚ) : ℚ := x - y * (jsTrunc (x / y) : ℚ)

/-- Characters removed by the JavaScript string trim method (common subset). -/
def jsWhitespace (c : Char) : Bool :=
  c = ' ' || c = '\t' || c = '\n' || c = '\r' || c = '\x0b' || c = '\x0c' || c = ' '

/-- JavaScript string trim: drop whitespace from both ends. -/
def jsTrim (s : String) : String :=
  String.mk (((s.data.dropWhile jsWhitespace).reverse.dropWhile jsWhitespace).reverse)

/-- Render a nonnegative rational with one decimal digit, as toFixed 1 does. -/
def toFixed1 (q : ℚ) : String :=
  let n := jsRound (q * 10)
  let w := n / 10
  let d := n % 10
  toString w ++ "." ++ toString d

/-- Render a nonnegative rational with no decimal digits, as toFixed 0 does. -/
def toFixed0 (q : ℚ) : String :=
  toString (jsRound q)

/-- The formatDistance function: feet below one mile (nearest foot under
1000 ft, nearest 100 ft at or above), miles at or above one mile (one
decimal below 10 mi, none at or above). -/
def formatDistance (m : ℚ) : String :=
  let FT : ℚ := 328084 / 100000
  let MI : ℚ := 1609344 / 1000
  if m < MI then
    let ft := m * FT
    if ft < 1000 then
      let r := jsRound ft
      toString r ++ " ft"
    else
      let r := jsRound (ft / 100) * 100
      toString r ++ " ft"
  else
    let mi := m / MI
    if mi < 10 then toFixed1 mi ++ " mi" else toFixed0 mi ++ " mi"

/-- The labelAccuracy function: dash when the accuracy is null, High at
10 m or better, Med at 30 m or better, Poor otherwise. -/
def labelAccuracy (m : Option ℚ) : String :=
  match m with
  | none => "—"
  | some v => if v ≤ 10 then "High" else if v ≤ 30 then "Med" else "Poor"

/-- A latitude and longitude pair. -/
structure LatLng where
  latitude : ℚ
  longitude : ℚ
deriving DecidableEq

/-- The persisted key-value store, one field per storage key the program
uses for the spot lifecycle and the countdown. -/
structure Storage where
  car_spot : Option LatLng
  car_time : Option Int
  car_note : Option String
  car_countdown_until : Option Int
deriving DecidableEq

/-- The in-memory component state relevant to the claims, plus the store. -/
structure AppState where
  isPremium : Bool
  current : Option LatLng
  saved : Option LatLng
  savedAt : Option Int
  note : Option String
  countdownEndsAt : Option Int
  storage : Storage
deriving DecidableEq

/-- JavaScript truthiness of a nullable number: null and zero are falsy. -/
def numTruthy (v : Option Int) : Bool :=
  match v with
  | none => false
  | some n => n != 0

/-- Errors the timer operations surface through alerts. -/
inductive TimerError where
  | PremiumRequired
deriving DecidableEq

/-- The saveSpot handler. Returns the new state and whether the overwrite
confirmation dialog was shown. With no current fix it alerts and stops;
with an existing saved spot it asks for confirmation and stops when the
user declines; otherwise it stores the current coordinate and a fresh
timestamp in memory and in the store. The note is not touched. -/
def saveSpot (s : AppState) (now : Int) (confirm : Bool) : AppState × Bool :=
  match s.current with
  | none => (s, false)
  | some cur =>
    if s.saved.isSome && !confirm then (s, true)
    else
      ({ s with saved := some cur
              , savedAt := some now
              , storage := { s.storage with car_spot := some cur, car_time := some now } },
       s.saved.isSome)

/-- The Save Note press handler: trim the draft, keep null in memory when
the trimmed draft is empty, and write the trimmed draft to the store. -/
def saveNote (s : AppState) (draft : String) : AppState :=
  let trimmed := jsTrim draft
  { s with note := if trimmed = "" then none else some trimmed
         , storage := { s.storage with car_note := some trimmed } }

/-- How the startup load interprets the persisted note: a falsy raw value,
absent or empty, leaves the note null. -/
def loadedNote (raw : Option String) : Option String :=
  match raw with
  | none => none
  | some r => if r = "" then none else some r

/-- The startCountdown handler: without premium it alerts and changes
nothing; with premium it sets the end instant now + minutes * 60 * 1000 in
memory and in the store. -/
def startCountdown (s : AppState) (now : Int) (minutes : Int) : AppState × Option TimerError :=
  if !s.isPremium then (s, some TimerError.PremiumRequired)
  else
    let e := now + minutes * 60 * 1000
    ({ s with countdownEndsAt := some e
            , storage := { s.storage with car_countdown_until := some e } }, none)

/-- The extendCountdown handler: a silent return when premium is off or no
countdown end is set; a confirmation dialog otherwise, and on confirm the
end instant grows by minutes * 60 * 1000 in memory and in the store. -/
def extendCountdown (s : AppState) (minutes : Int) (confirm : Bool) : AppState × Option TimerError :=
  if !s.isPremium || !numTruthy s.countdownEndsAt then (s, none)
  else if !confirm then (s, none)
  else
    match s.countdownEndsAt with
    | none => (s, none)
    | some e =>
      let newEnd := e + minutes * 60 * 1000
      ({ s with countdownEndsAt := some newEnd
              , storage := { s.storage with car_countdown_until := some newEnd } }, none)

/-- The clearCountdown handler: null the end instant and remove the key. -/
def clearCountdown (s : AppState) : AppState :=
  { s with countdownEndsAt := none
         , storage := { s.storage with car_countdown_until := none } }

/-- The countdown expiry effect, run on each tick: when an end instant is
set, nonzero, and not in the future, fire one immediate notification and
clear the countdown. Returns the new state and how many notifications were
fired by this tick. -/
def expiryTick (s : AppState) (now : Int) : AppState × Nat :=
  if !numTruthy s.countdownEndsAt then (s, 0)
  else
    match s.countdownEndsAt with
    | none => (s, 0)
    | some e => if now < e then (s, 0) else (clearCountdown s, 1)

/-- The compass arrow angle: zero when the heading or the target bearing is
unavailable, otherwise the difference normalized into the interval from 0
up to 360 by the JavaScript remainder followed by a conditional shift. -/
def arrowRotation (headingDeg targetBearing : Option ℚ) : ℚ :=
  match headingDeg, targetBearing with
  | some h, some b =>
    let rot := jsMod (b - h) 360
    if rot < 0 then rot + 360 else rot
  | _, _ => 0

/-- A concrete coordinate for witnesses. -/
def spotA : LatLng := { latitude := 37, longitude := -122 }

/-- A second concrete coordinate for witnesses. -/
def spotB : LatLng := { latitude := 38, longitude := -121 }

/-- An empty store for witnesses. -/
def emptyStorage : Storage :=
  { car_spot := none, car_time := none, car_note := none, car_countdown_until := none }

/-- A free-tier state with a current fix and no saved spot. -/
def stateNoSpot : AppState :=
  { isPremium := false, current := some spotA, saved := none, savedAt := none
  , note := none, countdownEndsAt := none, storage := emptyStorage }

/-- A premium state with a saved spot, a note, and a fresh current fix. -/
def stateWithSpot : AppState :=
  { isPremium := true, current := some spotB, saved := some spotA, savedAt := some 100
  , note := some ("Level 2"), countdownEndsAt := none
  , storage := { car_spot := some spotA, car_time := some 100
               , car_note := some ("Level 2"), car_countdown_until := none } }

/-- A premium state with a running countdown ending at instant 600000. -/
def statePremiumRunning : AppState :=
  { isPremium := true, current := none, saved := none, savedAt := none
  , note := none, countdownEndsAt := some 600000
  , storage := { emptyStorage with car_countdown_until := some 600000 } }

/-- Helper: formatDistance at 500 meters renders 1600 ft. -/
theorem formatDistance_at_500 : formatDistance 500 = "1600 ft" := by
  have h1 : ((500 : ℚ) < 1609344 / 1000) := by norm_num
  have h2 : ¬ ((500 : ℚ) * (328084 / 100000) < 1000) := by norm_num
  have h3 : ⌊((500 : ℚ) * (328084 / 100000) / 100 + 1 / 2)⌋ = 16 := by
    rw [Int.floor_eq_iff]
    norm_num
  simp only [formatDistance, jsRound]
  rw [if_pos h1, if_neg h2, h3]
  rfl

/-- Helper: formatDistance at one mile of meters renders 1.0 mi. -/
theorem formatDistance_at_mile : formatDistance ((1609344 : ℚ) / 1000) = "1.0 mi" := by
  have h1 : ¬ ((1609344 : ℚ) / 1000 < 1609344 / 1000) := by norm_num
  have h2 : ((1609344 : ℚ) / 1000 / (1609344 / 1000) < 10) := by norm_num
  have h3 : ⌊((1609344 : ℚ) / 1000 / (1609344 / 1000) * 10 + 1 / 2)⌋ = 10 := by
    rw [Int.floor_eq_iff]
    norm_num
  simp only [formatDistance, toFixed1, jsRound]
  rw [if_neg h1, if_pos h2, h3]
  rfl

/-- Helper: formatDistance at ten miles of meters renders 10 mi. -/
theorem formatDistance_at_ten_miles : formatDistance ((1609344 : ℚ) / 100) = "10 mi" := by
  have h1 : ¬ ((1609344 : ℚ) / 100 < 1609344 / 1000) := by norm_num
  have h2 : ¬ ((1609344 : ℚ) / 100 / (1609344 / 1000) < 10) := by norm_num
  have h3 : ⌊((1609344 : ℚ) / 100 / (1609344 / 1000) + 1 / 2)⌋ = 10 := by
    rw [Int.floor_eq_iff]
    norm_num
  simp only [formatDistance, toFixed0, jsRound]
  rw [if_neg h1, if_neg h2, h3]
  rfl

/-- Claim C2 counterexample: formatDistance at 500 meters does not render
as 500 ft; 500 meters is about 1640 ft, rounded to the nearest 100 ft. -/
theorem C2_counterexample : formatDistance 500 ≠ "500 ft" := by
  rw [formatDistance_at_500]
  decide

/-- Claim C2 as amended: formatDistance 500 is 1600 ft, formatDistance at
one mile in meters is 1.0 mi, and at ten miles in meters is 10 mi. -/
theorem C2_formatDistance_values :
    formatDistance 500 = "1600 ft" ∧
    formatDistance ((1609344 : ℚ) / 1000) = "1.0 mi" ∧
    formatDistance ((1609344 : ℚ) / 100) = "10 mi" :=
  ⟨formatDistance_at_500, formatDistance_at_mile, formatDistance_at_ten_miles⟩

/-- Claim C4 counterexample: the accuracy label at 5 meters is not the
lowercase string high; the program renders High. -/
theorem C4_counterexample : labelAccuracy (some 5) ≠ "high" := by decide

/-- Claim C4 as amended: labelAccuracy maps null to a dash, values up to
10 to High, values in the interval from 10 up to 30 to Med, and larger
values to Poor. -/
theorem C4_labelAccuracy_classes :
    ∀ m : ℚ,
      labelAccuracy none = "—" ∧
      (m ≤ 10 → labelAccuracy (some m) = "High") ∧
      (10 < m → m ≤ 30 → labelAccuracy (some m) = "Med") ∧
      (30 < m → labelAccuracy (some m) = "Poor") := by
  intro m
  refine ⟨rfl, ?_, ?_, ?_⟩
  · intro h1
    simp [labelAccuracy, h1]
  · intro h1 h2
    simp [labelAccuracy, h2, not_le.mpr h1]
  · intro h1
    have h2 : ¬ m ≤ 10 := by linarith
    have h3 : ¬ m ≤ 30 := by linarith
    simp [labelAccuracy, h2, h3]

/-- Claim C4 witness: the amended classification at the concrete inputs
named by the claim. -/
theorem C4_witness :
    labelAccuracy (some 5) = "High" ∧ labelAccuracy (some 20) = "Med" ∧
    labelAccuracy (some 100) = "Poor" ∧ labelAccuracy none = "—" :=
  ⟨(C4_labelAccuracy_classes 5).2.1 (by norm_num),
   (C4_labelAccuracy_classes 20).2.2.1 (by norm_num) (by norm_num),
   (C4_labelAccuracy_classes 100).2.2.2 (by norm_num),
   (C4_labelAccuracy_classes 0).1⟩

/-- Helper: the floor-based remainder by 360 is nonnegative. -/
theorem floorMod360_nonneg (x : ℚ) : 0 ≤ x - 360 * (⌊x / 360⌋ : ℚ) := by
  have h360 : (0 : ℚ) < 360 := by norm_num
  have hzl : ((⌊x / 360⌋ : ℤ) : ℚ) ≤ x / 360 := Int.floor_le _
  have := (le_div_iff₀ h360).mp hzl
  linarith

/-- Helper: the floor-based remainder by 360 is below 360. -/
theorem floorMod360_lt (x : ℚ) : x - 360 * (⌊x / 360⌋ : ℚ) < 360 := by
  have h360 : (0 : ℚ) < 360 := by norm_num
  have hzu : x / 360 < ((⌊x / 360⌋ : ℤ) : ℚ) + 1 := Int.lt_floor_add_one _
  have := (div_lt_iff₀ h360).mp hzu
  linarith

/-- Helper: the JavaScript remainder by 360 followed by the conditional
shift into the nonnegative range agrees with the floor-based remainder. -/
theorem jsMod360_norm (x : ℚ) :
    (if jsMod x 360 < 0 then jsMod x 360 + 360 else jsMod x 360)
      = x - 360 * (⌊x / 360⌋ : ℚ) := by
  have h360 : (0 : ℚ) < 360 := by norm_num
  have hzl : ((⌊x / 360⌋ : ℤ) : ℚ) ≤ x / 360 := Int.floor_le _
  have hzu : x / 360 < ((⌊x / 360⌋ : ℤ) : ℚ) + 1 := Int.lt_floor_add_one _
  have hxl : ((⌊x / 360⌋ : ℤ) : ℚ) * 360 ≤ x := (le_div_iff₀ h360).mp hzl
  have hxu : x < (((⌊x / 360⌋ : ℤ) : ℚ) + 1) * 360 := (div_lt_iff₀ h360).mp hzu
  unfold jsMod jsTrunc
  rcases le_or_lt 0 (x / 360) with hy | hy
  · rw [if_pos hy]
    have hnn : ¬ (x - 360 * ((⌊x / 360⌋ : ℤ) : ℚ) < 0) := by
      push_neg
      linarith
    rw [if_neg hnn]
  · rw [if_neg (not_le.mpr hy)]
    have hc1 : ⌊x / 360⌋ ≤ ⌈x / 360⌉ := Int.floor_le_ceil _
    have hc2 : ⌈x / 360⌉ ≤ ⌊x / 360⌋ + 1 := Int.ceil_le_floor_add_one _
    rcases eq_or_lt_of_le hc1 with hEq | hLt
    · have hyc : x / 360 ≤ ((⌈x / 360⌉ : ℤ) : ℚ) := Int.le_ceil _
      have hyz : x / 360 = ((⌊x / 360⌋ : ℤ) : ℚ) := by
        rw [hEq]
        have : ((⌈x / 360⌉ : ℤ) : ℚ) ≤ x / 360 := by
          rw [← hEq]
          exact hzl
        linarith
      have hx0 : x = ((⌊x / 360⌋ : ℤ) : ℚ) * 360 := (div_eq_iff (ne_of_gt h360)).mp hyz
      rw [← hEq]
      have hnn : ¬ (x - 360 * ((⌊x / 360⌋ : ℤ) : ℚ) < 0) := by
        push_neg
        linarith
      rw [if_neg hnn]
    · have hcz : ⌈x / 360⌉ = ⌊x / 360⌋ + 1 := le_antisymm hc2 hLt
      have hlt0 : x - 360 * ((⌈x / 360⌉ : ℤ) : ℚ) < 0 := by
        rw [hcz]
        push_cast
        linarith
      rw [if_pos hlt0, hcz]
      push_cast
      ring

/-- Claim C8: with both heading and bearing available, arrowRotation is the
difference reduced modulo 360 into the half-open interval from 0 to 360;
it is 0 when either input is unavailable; and it always lies in that
interval. -/
theorem C8_arrowRotation_spec :
    (∀ h b : ℚ, arrowRotation (some h) (some b)
        = (b - h) - 360 * (⌊(b - h) / 360⌋ : ℚ)) ∧
    (∀ o : Option ℚ, arrowRotation none o = 0 ∧ arrowRotation o none = 0) ∧
    (∀ ho bo : Option ℚ, 0 ≤ arrowRotation ho bo ∧ arrowRotation ho bo < 360) := by
  refine ⟨?_, ?_, ?_⟩
  · intro h b
    exact jsMod360_norm (b - h)
  · intro o
    refine ⟨rfl, ?_⟩
    cases o <;> rfl
  · intro ho bo
    match ho, bo with
    | none, none => exact ⟨le_refl 0, by norm_num [arrowRotation]⟩
    | none, some b => exact ⟨le_refl 0, by norm_num [arrowRotation]⟩
    | some h, none => exact ⟨le_refl 0, by norm_num [arrowRotation]⟩
    | some h, some b =>
      have hrw : arrowRotation (some h) (some b)
          = (b - h) - 360 * (⌊(b - h) / 360⌋ : ℚ) := jsMod360_norm (b - h)
      rw [hrw]
      exact ⟨floorMod360_nonneg (b - h), floorMod360_lt (b - h)⟩

/-- Claim C1 counterexample: a confirmed overwrite save at a state holding
the note Level 2 keeps that note; it does not become null. -/
theorem C1_counterexample :
    (saveSpot stateWithSpot 2000 true).1.savedAt = some 2000 ∧
    (saveSpot stateWithSpot 2000 true).1.note = some ("Level 2") ∧
    (saveSpot stateWithSpot 2000 true).1.note ≠ none := by
  refine ⟨rfl, rfl, ?_⟩
  decide

/-- Claim C1 as amended: a confirmed overwrite save replaces the coordinate
and sets a fresh savedAt timestamp, in memory and in the store, but leaves
the existing note unchanged in memory and in the store: the old note
carries over. -/
theorem C1_overwrite_keeps_note :
    ∀ (s : AppState) (now : Int) (c p : LatLng),
      s.current = some c → s.saved = some p →
      (saveSpot s now true).1.saved = some c ∧
      (saveSpot s now true).1.savedAt = some now ∧
      (saveSpot s now true).1.storage.car_spot = some c ∧
      (saveSpot s now true).1.storage.car_time = some now ∧
      (saveSpot s now true).1.note = s.note ∧
      (saveSpot s now true).1.storage.car_note = s.storage.car_note := by
  intro s now c p hc hs
  simp [saveSpot, hc, hs]

/-- Claim C1 witness: the amended statement applied at a concrete overwrite
over the state holding the note Level 2. -/
theorem C1_witness :
    (saveSpot stateWithSpot 2500 true).1.savedAt = some 2500 ∧
    (saveSpot stateWithSpot 2500 true).1.note = stateWithSpot.note :=
  ⟨(C1_overwrite_keeps_note stateWithSpot 2500 spotB spotA rfl rfl).2.1,
   (C1_overwrite_keeps_note stateWithSpot 2500 spotB spotA rfl rfl).2.2.2.2.1⟩

/-- Claim C3 counterexample: a whitespace-only draft leaves the in-memory
note null, yet the persisted note key holds the empty string, not null. -/
theorem C3_counterexample :
    (saveNote stateNoSpot ("   ")).note = none ∧
    (saveNote stateNoSpot ("   ")).storage.car_note = some ("") ∧
    (saveNote stateNoSpot ("   ")).storage.car_note ≠ none := by
  refine ⟨?_, ?_, ?_⟩ <;> decide

/-- Claim C3 as amended: the note handler trims the draft; a draft that is
empty after trimming is stored as null in memory, while the persisted note
key always receives the trimmed string, which is empty in that case; the
startup load treats an empty persisted note as absent. -/
theorem C3_setNote_spec :
    ∀ (s : AppState) (text : String),
      (saveNote s text).note
        = (if jsTrim text = "" then none else some (jsTrim text)) ∧
      (saveNote s text).storage.car_note = some (jsTrim text) ∧
      loadedNote (some ("")) = none := by
  intro s text
  exact ⟨rfl, rfl, rfl⟩

/-- Claim C5: extending a running countdown adds minutes times 60000 to the
stored end instant, independent of the current time; starting a countdown
of 30 minutes and then extending by 15 ends exactly 45 minutes after the
original start instant. -/
theorem C5_extend_cumulative :
    (∀ (s : AppState) (minutes e : Int),
        s.isPremium = true → s.countdownEndsAt = some e → e ≠ 0 →
        (extendCountdown s minutes true).1.countdownEndsAt
          = some (e + minutes * 60 * 1000) ∧
        (extendCountdown s minutes true).1.storage.car_countdown_until
          = some (e + minutes * 60 * 1000)) ∧
    (∀ (s : AppState) (t : Int), s.isPremium = true → 0 ≤ t →
        (extendCountdown (startCountdown s t 30).1 15 true).1.countdownEndsAt
          = some (t + 45 * 60 * 1000)) := by
  constructor
  · intro s minutes e hp he hz
    constructor <;> simp [extendCountdown, numTruthy, hp, he, hz]
  · intro s t hp ht
    have h30 : (startCountdown s t 30).1.countdownEndsAt = some (t + 30 * 60 * 1000) := by
      simp [startCountdown, hp]
    have hprem : (startCountdown s t 30).1.isPremium = true := by
      simp [startCountdown, hp]
    have hz : t + 1800000 ≠ 0 := by omega
    simp [extendCountdown, numTruthy, hprem, h30, hz]
    omega

/-- Claim C5 witness: the cumulative extension at concrete states, both for
a running countdown and for the start-then-extend sequence. -/
theorem C5_witness :
    (extendCountdown statePremiumRunning 5 true).1.countdownEndsAt
      = some (600000 + 5 * 60 * 1000) ∧
    (extendCountdown (startCountdown stateWithSpot 1000 30).1 15 true).1.countdownEndsAt
      = some (1000 + 45 * 60 * 1000) :=
  ⟨((C5_extend_cumulative).1 statePremiumRunning 5 600000 rfl rfl (by decide)).1,
   (C5_extend_cumulative).2 stateWithSpot 1000 rfl (by decide)⟩

/-- Claim C6: starting a countdown without the premium entitlement fails
with PremiumRequired and returns the state entirely unchanged: no end
instant in memory and nothing written to the store. -/
theorem C6_startCountdown_gate :
    ∀ (s : AppState) (now minutes : Int),
      s.isPremium = false →
      startCountdown s now minutes = (s, some TimerError.PremiumRequired) := by
  intro s now minutes hp
  simp [startCountdown, hp]

/-- Claim C6 witness: the gate at a concrete free-tier state. -/
theorem C6_witness :
    startCountdown stateNoSpot 0 60 = (stateNoSpot, some TimerError.PremiumRequired) :=
  C6_startCountdown_gate stateNoSpot 0 60 rfl

/-- Claim C7: the first tick observing a nonzero end instant at or before
now fires exactly one notification and clears the countdown in memory and
in the store; every later tick fires nothing and changes nothing. -/
theorem C7_expiry_once :
    ∀ (s : AppState) (e now : Int),
      s.countdownEndsAt = some e → e ≠ 0 → e ≤ now →
      (expiryTick s now).2 = 1 ∧
      (expiryTick s now).1.countdownEndsAt = none ∧
      (expiryTick s now).1.storage.car_countdown_until = none ∧
      ∀ later : Int, expiryTick (expiryTick s now).1 later = ((expiryTick s now).1, 0) := by
  intro s e now he hz hle
  have hfirst : expiryTick s now = (clearCountdown s, 1) := by
    simp [expiryTick, numTruthy, he, hz, not_lt.mpr hle]
  refine ⟨by rw [hfirst], by rw [hfirst]; rfl, by rw [hfirst]; rfl, ?_⟩
  intro later
  rw [hfirst]
  simp [expiryTick, clearCountdown, numTruthy]

/-- Claim C7 witness: a concrete expired countdown fires once and clears. -/
theorem C7_witness :
    (expiryTick statePremiumRunning 600000).2 = 1 ∧
    (expiryTick statePremiumRunning 600000).1.countdownEndsAt = none :=
  ⟨(C7_expiry_once statePremiumRunning 600000 600000 rfl (by decide) (by decide)).1,
   (C7_expiry_once statePremiumRunning 600000 600000 rfl (by decide) (by decide)).2.1⟩

/-- Claim C9: a save with no existing spot never shows the confirmation
dialog; a save with an existing spot and a current fix always shows it; and
declining it leaves the whole state, memory and store, unchanged. -/
theorem C9_save_confirmation :
    (∀ (s : AppState) (now : Int) (confirm : Bool),
        s.saved = none → (saveSpot s now confirm).2 = false) ∧
    (∀ (s : AppState) (now : Int) (confirm : Bool) (c p : LatLng),
        s.current = some c → s.saved = some p → (saveSpot s now confirm).2 = true) ∧
    (∀ (s : AppState) (now : Int) (c p : LatLng),
        s.current = some c → s.saved = some p → (saveSpot s now false).1 = s) := by
  refine ⟨?_, ?_, ?_⟩
  · intro s now confirm hs
    cases hc : s.current with
    | none => simp [saveSpot, hc]
    | some c => cases confirm <;> simp [saveSpot, hc, hs]
  · intro s now confirm c p hc hs
    cases confirm <;> simp [saveSpot, hc, hs]
  · intro s now c p hc hs
    simp [saveSpot, hc, hs]

/-- Claim C9 witness: the confirmation behavior at concrete states with and
without an existing saved spot. -/
theorem C9_witness :
    (saveSpot stateNoSpot 5 true).2 = false ∧
    (saveSpot stateWithSpot 5 true).2 = true ∧
    (saveSpot stateWithSpot 5 false).1 = stateWithSpot :=
  ⟨(C9_save_confirmation).1 stateNoSpot 5 true rfl,
   (C9_save_confirmation).2.1 stateWithSpot 5 true spotB spotA rfl rfl,
   (C9_save_confirmation).2.2 stateWithSpot 5 spotB spotA rfl rfl⟩

/-- Claim C10: when premium is inactive or no countdown end is set, the
extend handler is a silent no-op: no error is surfaced and the state,
memory and store, is returned unchanged. -/
theorem C10_extend_noop :
    ∀ (s : AppState) (minutes : Int) (confirm : Bool),
      s.isPremium = false ∨ s.countdownEndsAt = none →
      extendCountdown s minutes confirm = (s, none) := by
  intro s minutes confirm h
  rcases h with hp | hc
  · simp [extendCountdown, hp]
  · simp [extendCountdown, numTruthy, hc]

/-- Claim C10 witness: the silent no-op at a concrete free-tier state. -/
theorem C10_witness :
    extendCountdown stateNoSpot 5 true = (stateNoSpot, none) :=
  C10_extend_noop stateNoSpot 5 true (Or.inl rfl)
